import Mathlib

/-!
Verification development for the authelia forward-auth gateway slice.

Shallow embedding of:
- the server route registration (`getHandler`) and the error-handler helper
  `getRemoteIP` from the server package;
- the configuration validator `ValidatePasswordPolicy`;
- the OAuth revocation handler `OAuthRevocationPOST`;
- the spec-level models of components whose bodies are not in the visible
  slice (Require1FA, the access-control policy engine, the verification
  workflow, the ceremony-token store).

Go machine integers are modelled as `Int`/`Nat`; Go slices as `List`;
fallible collaborators as `Option`/sum-like inductives.
-/

namespace Authelia

/-! ## Go string helpers

Character-list implementations of the Go standard-library string operations
used by the embedded code (`strings.Split` with a one-character separator,
`strings.Trim(s, " ")`, `strings.ToLower` restricted to ASCII,
`strings.HasPrefix`).  They are written as structural recursions over
`List Char` so that concrete evaluations reduce in the kernel. -/

/-- Go `strings.Split(s, ",")` on the character list: splits around every
comma, keeping empty fields; always returns at least one field. -/
def splitFields : List Char → List (List Char)
  | [] => [[]]
  | c :: cs =>
    if c = ',' then [] :: splitFields cs
    else
      match splitFields cs with
      | [] => [[c]]
      | f :: fs => (c :: f) :: fs

/-- Go `strings.Split(s, ",")`. -/
def goSplitComma (s : String) : List String :=
  (splitFields s.data).map String.mk

/-- Go `strings.Trim(s, " ")`: remove leading and trailing space characters. -/
def goTrimSpace (s : String) : String :=
  String.mk (((s.data.dropWhile (fun c => c == ' ')).reverse.dropWhile
    (fun c => c == ' ')).reverse)

/-- Check that a character list begins with the given pattern list. -/
def startsWithChars : List Char → List Char → Bool
  | _, [] => true
  | [], _ :: _ => false
  | c :: cs, d :: ds => c == d && startsWithChars cs ds

/-- Go `strings.HasPrefix`. -/
def startsWithStr (s pat : String) : Bool :=
  startsWithChars s.data pat.data

/-- Suffix test, used to model the locales route pattern. -/
def endsWithStr (s pat : String) : Bool :=
  startsWithChars s.data.reverse pat.data.reverse

/-- ASCII lowering of one character (Go `strings.ToLower` on URL paths). -/
def lowerChar (c : Char) : Char :=
  if 65 ≤ c.toNat ∧ c.toNat ≤ 90 then Char.ofNat (c.toNat + 32) else c

/-- ASCII `strings.ToLower`. -/
def lowerString (s : String) : String :=
  String.mk (s.data.map lowerChar)

theorem splitFields_ne_nil (cs : List Char) : splitFields cs ≠ [] := by
  cases cs with
  | nil => simp [splitFields]
  | cons c cs =>
    simp only [splitFields]
    split
    · simp
    · split <;> simp

theorem goSplitComma_ne_nil (s : String) : goSplitComma s ≠ [] := by
  unfold goSplitComma
  simp [splitFields_ne_nil]

/-! ## getRemoteIP (server error handler)

Embedding of the closure `getRemoteIP` defined inside `handlerError`:

    if hdr := ctx.Request.Header.PeekBytes(headerXForwardedFor); hdr != nil {
        ips := strings.Split(string(hdr), ",")
        if len(ips) > 0 {
            return strings.Trim(ips[0], " ")
        }
    }
    return ctx.RemoteIP().String()

The X-Forwarded-For header is `none` when absent (PeekBytes returns nil);
`remoteIP` is the string form of the transport-layer peer address. -/

def getRemoteIP (xForwardedFor : Option String) (remoteIP : String) : String :=
  match xForwardedFor with
  | some hdr =>
    match goSplitComma hdr with
    | [] => remoteIP
    | ip0 :: _ => goTrimSpace ip0
  | none => remoteIP

/-- C1 counterexample: with a client-supplied header
`X-Forwarded-For: 10.0.0.99, 203.0.113.195` and transport peer address
`203.0.113.195`, `getRemoteIP` reports the attacker-controlled first entry
`10.0.0.99`, which differs from the transport address; no trusted-proxy hop
configuration is consulted (the function takes none). -/
theorem getRemoteIP_spoofable_concrete :
    getRemoteIP (some "10.0.0.99, 203.0.113.195") "203.0.113.195" = "10.0.0.99" ∧
    "10.0.0.99" ≠ "203.0.113.195" := by
  constructor
  · rfl
  · decide

/-- C1 (amended): `getRemoteIP` unconditionally returns the space-trimmed
first comma-separated entry of the client-supplied X-Forwarded-For header
whenever that header is present, with no trusted-hop bound, and falls back
to the transport remote address only when the header is absent. -/
theorem getRemoteIP_unconditional_first_entry (hdr ip : String) :
    getRemoteIP (some hdr) ip = goTrimSpace ((goSplitComma hdr).headD "") ∧
    getRemoteIP none ip = ip := by
  refine ⟨?_, rfl⟩
  cases h : goSplitComma hdr with
  | nil => exact absurd h (goSplitComma_ne_nil hdr)
  | cons a as => simp [getRemoteIP, h]

/-! ## ValidatePasswordPolicy (internal/configuration/validator)

Embedding of `ValidatePasswordPolicy` and the schema types it touches.
The Go function mutates `config` in place and pushes errors onto the
validator; here it returns the updated configuration together with the
list of pushed errors, in push order.  The `Require*` boolean knobs of the
standard policy are never read or written by the validator and are omitted
from the model. -/

structure PasswordPolicyStandardParams where
  enabled : Bool
  minLength : Int
  maxLength : Int
  deriving DecidableEq

structure PasswordPolicyZXCVBNParams where
  enabled : Bool
  deriving DecidableEq

structure PasswordPolicyConfiguration where
  standard : PasswordPolicyStandardParams
  zxcvbn : PasswordPolicyZXCVBNParams
  deriving DecidableEq

/-- Errors pushed by the validator: `errPasswordPolicyMultipleDefined`
("only a single password policy mechanism can be specified") and
`errFmtPasswordPolicyMinLengthNotGreaterThanZero` with the offending
value. -/
inductive PasswordPolicyError where
  | multipleDefined
  | minLengthNotGreaterThanZero (value : Int)
  deriving DecidableEq

/-- Modelled from the spec: `schema.DefaultPasswordPolicyConfiguration` is
not under src/.  The unit test `TestValidatePasswordPolicy` pins the
defaulted `Standard.MinLength` to 8 (case ShouldSetDefaultstandard) and
shows `Standard.MaxLength` still 0 after defaulting, so the default
`MaxLength` is 0. -/
def DefaultPasswordPolicyConfiguration : PasswordPolicyConfiguration :=
  ⟨⟨false, 8, 0⟩, ⟨false⟩⟩

/-- Modelled from the spec: `utils.IsBoolCountLessThanN` is not under src/.
Per its uses and the unit test it holds exactly when at most `n` of the
values equal `v` (one enabled mechanism raises no error, two do). -/
def IsBoolCountLessThanN (n : Nat) (v : Bool) (vals : List Bool) : Bool :=
  decide (vals.countP (fun b => b == v) ≤ n)

/-- Embedding of `ValidatePasswordPolicy`.  Returns the updated
configuration and the pushed errors in order. -/
def ValidatePasswordPolicy (config : PasswordPolicyConfiguration) :
    PasswordPolicyConfiguration × List PasswordPolicyError :=
  let errs0 : List PasswordPolicyError :=
    if IsBoolCountLessThanN 1 true [config.standard.enabled, config.zxcvbn.enabled] then []
    else [PasswordPolicyError.multipleDefined]
  if config.standard.enabled then
    let stdMin :=
      if config.standard.minLength = 0 then
        { config.standard with
            minLength := DefaultPasswordPolicyConfiguration.standard.minLength }
      else config.standard
    let errs1 :=
      if config.standard.minLength = 0 then errs0
      else if config.standard.minLength < 0 then
        errs0 ++ [PasswordPolicyError.minLengthNotGreaterThanZero config.standard.minLength]
      else errs0
    let stdMax :=
      if stdMin.maxLength = 0 then
        { stdMin with
            maxLength := DefaultPasswordPolicyConfiguration.standard.maxLength }
      else stdMin
    ({ config with standard := stdMax }, errs1)
  else (config, errs0)

/-- C8: with the standard policy enabled, a zero `MinLength` is replaced by
the default 8 and any other value is kept (in particular a negative value
is left unchanged); the min-length error is pushed exactly for negative
values; a zero `MaxLength` is replaced by the default `MaxLength`. -/
theorem validatePasswordPolicy_defaults (config : PasswordPolicyConfiguration)
    (hEnabled : config.standard.enabled = true) :
    ((ValidatePasswordPolicy config).1.standard.minLength =
      if config.standard.minLength = 0 then 8 else config.standard.minLength) ∧
    (PasswordPolicyError.minLengthNotGreaterThanZero config.standard.minLength ∈
        (ValidatePasswordPolicy config).2 ↔ config.standard.minLength < 0) ∧
    ((ValidatePasswordPolicy config).1.standard.maxLength =
      if config.standard.maxLength = 0 then
        DefaultPasswordPolicyConfiguration.standard.maxLength
      else config.standard.maxLength) := by
  rcases config with ⟨⟨se, minL, maxL⟩, ⟨ze⟩⟩
  simp only at hEnabled
  subst hEnabled
  cases ze <;>
    simp only [ValidatePasswordPolicy, IsBoolCountLessThanN,
      DefaultPasswordPolicyConfiguration] <;>
    split_ifs <;> simp_all

/-- C8 witness: a concrete enabled configuration with negative `MinLength`
and zero `MaxLength`. -/
theorem validatePasswordPolicy_defaults_witness :
    ((ValidatePasswordPolicy ⟨⟨true, -1, 0⟩, ⟨true⟩⟩).1.standard.minLength =
      if (-1 : Int) = 0 then 8 else (-1 : Int)) ∧
    (PasswordPolicyError.minLengthNotGreaterThanZero (-1) ∈
        (ValidatePasswordPolicy ⟨⟨true, -1, 0⟩, ⟨true⟩⟩).2 ↔ (-1 : Int) < 0) ∧
    ((ValidatePasswordPolicy ⟨⟨true, -1, 0⟩, ⟨true⟩⟩).1.standard.maxLength =
      if (0 : Int) = 0 then DefaultPasswordPolicyConfiguration.standard.maxLength
      else (0 : Int)) :=
  validatePasswordPolicy_defaults ⟨⟨true, -1, 0⟩, ⟨true⟩⟩ rfl

/-- C9: the "only a single password policy mechanism can be specified"
error is pushed iff both `Standard.Enabled` and `ZXCVBN.Enabled` are true
(more than one of the two mechanisms); with at most one enabled it is
never pushed. -/
theorem validatePasswordPolicy_multipleDefined_iff
    (config : PasswordPolicyConfiguration) :
    PasswordPolicyError.multipleDefined ∈ (ValidatePasswordPolicy config).2 ↔
      (config.standard.enabled = true ∧ config.zxcvbn.enabled = true) := by
  rcases config with ⟨⟨se, minL, maxL⟩, ⟨ze⟩⟩
  cases se <;> cases ze <;>
    simp only [ValidatePasswordPolicy, IsBoolCountLessThanN] <;>
    split_ifs <;> simp_all

/-! ## OAuthRevocationPOST (internal/handlers)

Embedding of the revocation endpoint.  The fosite collaborator
`NewRevocationRequest` either succeeds (`none`) or yields an error whose
RFC 6749 description is logged; the produced value is the ordered list of
observable effects of the handler body. -/

structure RFC6749Error where
  description : String
  deriving DecidableEq

inductive RevocationEffect where
  | logError (description : String)
  | writeRevocationResponse (err : Option RFC6749Error)
  deriving DecidableEq

/-- Embedding of `OAuthRevocationPOST`: on a failed revocation request the
error is logged, and `WriteRevocationResponse` is called unconditionally
with the (possibly nil) error as the final action. -/
def OAuthRevocationPOST (newRevocationRequestError : Option RFC6749Error) :
    List RevocationEffect :=
  match newRevocationRequestError with
  | some e =>
    [RevocationEffect.logError e.description,
     RevocationEffect.writeRevocationResponse (some e)]
  | none => [RevocationEffect.writeRevocationResponse none]

/-- C10: for every outcome of `NewRevocationRequest`, the handler's effect
trace ends with (and therefore contains) a `WriteRevocationResponse` call
carrying that outcome; the handler never finishes without writing a
response. -/
theorem oauthRevocationPOST_always_writes (res : Option RFC6749Error) :
    (OAuthRevocationPOST res).getLast? =
      some (RevocationEffect.writeRevocationResponse res) ∧
    RevocationEffect.writeRevocationResponse res ∈ OAuthRevocationPOST res ∧
    OAuthRevocationPOST res ≠ [] := by
  cases res <;> simp [OAuthRevocationPOST]

/-! ## Identity sessions and factor levels (spec §3) -/

/-- Ordered authentication factor level of a session. -/
inductive FactorLevel where
  | none
  | first
  | second
  deriving DecidableEq

def FactorLevel.toNat : FactorLevel → Nat
  | .none => 0
  | .first => 1
  | .second => 2

/-- Level order: `factorGE l m` holds when `l` is at least `m`. -/
def factorGE (l m : FactorLevel) : Bool :=
  decide (m.toNat ≤ l.toNat)

/-- Second-factor methods named by the spec and the route table. -/
inductive SFMethod where
  | totp
  | webauthn
  | duo
  deriving DecidableEq

/-- Identity Session value object (spec §3); the timestamp bookkeeping is
left to the store model, which reports expired/absent sessions as
`notFound`. -/
structure IdentitySession where
  principal : Option String
  factorLevel : FactorLevel
  authenticatedMethods : List SFMethod
  groups : List String

/-! ## Access Control Policy Engine (spec §4.1)

Modelled from the spec: the policy-engine package is not under src/ (only
its consumers are).  A rule carries one matcher per dimension; absence of
a subject or network restriction is the constant-true matcher. -/

/-- Request target as seen by the engine. -/
structure Target where
  domain : String
  resource : String
  clientIP : String

/-- Subject information resolved from the session. -/
structure SubjectInfo where
  user : String
  groups : List String

inductive ReqLevel where
  | bypass
  | oneFactor
  | twoFactor
  deriving DecidableEq

/-- Modelled from the spec: an Access Control Rule (spec §3); a rule
matches only if domain, resource, subject and network all match. -/
structure AccessRule where
  domainMatch : String → Bool
  resourceMatch : String → Bool
  subjectMatch : SubjectInfo → Bool
  networkMatch : String → Bool
  requiredLevel : ReqLevel
  requiredMethods : List SFMethod

def ruleMatches (r : AccessRule) (t : Target) (s : SubjectInfo) : Bool :=
  r.domainMatch t.domain && r.resourceMatch t.resource &&
    r.subjectMatch s && r.networkMatch t.clientIP

/-- First rule, in declaration order, whose matchers all match. -/
def firstMatching : List AccessRule → Target → SubjectInfo → Option AccessRule
  | [], _, _ => Option.none
  | r :: rs, t, s => if ruleMatches r t s then some r else firstMatching rs t s

/-- Modelled from the spec: rules are tried in declaration order; the first
matching rule supplies the required level and methods; otherwise the
configured default policy applies (with no method restriction). -/
def evaluate : List AccessRule → ReqLevel → Target → SubjectInfo →
    ReqLevel × List SFMethod
  | [], dflt, _, _ => (dflt, [])
  | r :: rs, dflt, t, s =>
    if ruleMatches r t s then (r.requiredLevel, r.requiredMethods)
    else evaluate rs dflt t s

/-- Decision returned by the engine / Verification Workflow. -/
inductive Decision where
  | allow
  | denyRedirect (requiredLevel : ReqLevel) (requiredMethods : List SFMethod)
  | deny
  deriving DecidableEq

/-- Modelled from the spec (§4.1): Bypass always allows; One-Factor allows
iff the session holds at least a first factor; Two-Factor additionally
requires a method in `requiredMethods` (when non-empty) among the
session's authenticated methods. -/
def decisionFor (req : ReqLevel × List SFMethod) (sess : IdentitySession) : Decision :=
  match req.1 with
  | .bypass => .allow
  | .oneFactor =>
    if factorGE sess.factorLevel .first then .allow
    else .denyRedirect .oneFactor req.2
  | .twoFactor =>
    if factorGE sess.factorLevel .second &&
        (req.2.isEmpty || req.2.any (fun m => sess.authenticatedMethods.contains m)) then
      .allow
    else .denyRedirect .twoFactor req.2

/-- Full engine decision for a target and session. -/
def engineDecision (rules : List AccessRule) (dflt : ReqLevel) (t : Target)
    (subj : SubjectInfo) (sess : IdentitySession) : Decision :=
  decisionFor (evaluate rules dflt t subj) sess

theorem evaluate_eq_firstMatching (rules : List AccessRule) (dflt : ReqLevel)
    (t : Target) (subj : SubjectInfo) :
    evaluate rules dflt t subj =
      match firstMatching rules t subj with
      | some r => (r.requiredLevel, r.requiredMethods)
      | Option.none => (dflt, []) := by
  induction rules with
  | nil => rfl
  | cons r rs ih =>
    cases h : ruleMatches r t subj <;> simp [evaluate, firstMatching, h, ih]

theorem evaluate_insertIdx (rules : List AccessRule) (dflt : ReqLevel)
    (t : Target) (subj : SubjectInfo) (i : Nat) (r0 : AccessRule)
    (h : ruleMatches r0 t subj = false) :
    evaluate (List.insertIdx i r0 rules) dflt t subj = evaluate rules dflt t subj := by
  induction rules generalizing i with
  | nil =>
    cases i with
    | zero => simp [List.insertIdx_zero, evaluate, h]
    | succ n => simp [List.insertIdx_succ_nil]
  | cons r rs ih =>
    cases i with
    | zero => simp [List.insertIdx_zero, evaluate, h]
    | succ n =>
      rw [List.insertIdx_succ_cons]
      cases hm : ruleMatches r t subj <;> simp [evaluate, hm, ih]

/-- C7: the engine's output is fully determined by the first rule (in
declaration order) whose domain, resource, subject and network matchers
all match — the default policy applying when none matches — and inserting
a rule that does not match, at any position, changes neither the evaluated
requirement nor the resulting decision.  Modelled from the spec: the
engine itself is outside the visible slice. -/
theorem policy_first_match_determines_decision (rules : List AccessRule)
    (dflt : ReqLevel) (t : Target) (subj : SubjectInfo) (sess : IdentitySession)
    (i : Nat) (r0 : AccessRule) (h : ruleMatches r0 t subj = false) :
    (evaluate rules dflt t subj =
      match firstMatching rules t subj with
      | some r => (r.requiredLevel, r.requiredMethods)
      | Option.none => (dflt, [])) ∧
    evaluate (List.insertIdx i r0 rules) dflt t subj = evaluate rules dflt t subj ∧
    engineDecision (List.insertIdx i r0 rules) dflt t subj sess =
      engineDecision rules dflt t subj sess := by
  refine ⟨evaluate_eq_firstMatching rules dflt t subj,
    evaluate_insertIdx rules dflt t subj i r0 h, ?_⟩
  unfold engineDecision
  rw [evaluate_insertIdx rules dflt t subj i r0 h]

/-- Sample rule matching every request. -/
def matchAllRule : AccessRule :=
  ⟨fun _ => true, fun _ => true, fun _ => true, fun _ => true, .oneFactor, []⟩

/-- Sample rule matching no domain. -/
def matchNoneRule : AccessRule :=
  ⟨fun _ => false, fun _ => true, fun _ => true, fun _ => true, .twoFactor, [.totp]⟩

def sampleTarget : Target := ⟨"app.example.com", "/dashboard", "192.0.2.7"⟩

def sampleSubject : SubjectInfo := ⟨"bob", ["dev"]⟩

def sampleSession : IdentitySession := ⟨some "bob", .first, [], ["dev"]⟩

/-- C7 witness: concrete rule list, non-matching rule inserted at the
front. -/
theorem policy_first_match_determines_decision_witness :
    (evaluate [matchAllRule] .twoFactor sampleTarget sampleSubject =
      match firstMatching [matchAllRule] sampleTarget sampleSubject with
      | some r => (r.requiredLevel, r.requiredMethods)
      | Option.none => (.twoFactor, [])) ∧
    evaluate (List.insertIdx 0 matchNoneRule [matchAllRule]) .twoFactor
        sampleTarget sampleSubject =
      evaluate [matchAllRule] .twoFactor sampleTarget sampleSubject ∧
    engineDecision (List.insertIdx 0 matchNoneRule [matchAllRule]) .twoFactor
        sampleTarget sampleSubject sampleSession =
      engineDecision [matchAllRule] .twoFactor sampleTarget sampleSubject sampleSession :=
  policy_first_match_determines_decision [matchAllRule] .twoFactor sampleTarget
    sampleSubject sampleSession 0 matchNoneRule rfl

/-! ## Verification Workflow (spec §4.4) and fail-closed store errors -/

/-- Result of loading the session for the request from the abstract store. -/
inductive StoreLoad (α : Type) where
  | ok (a : α)
  | notFound
  | unavailable

/-- Anonymous session used when no session resolves (spec §4.4). -/
def anonymousSession : IdentitySession := ⟨Option.none, .none, [], []⟩

def subjectOf (s : IdentitySession) : SubjectInfo :=
  ⟨s.principal.getD "", s.groups⟩

/-- Modelled from the spec: the body of `handlers.VerifyGET` (registered at
GET/HEAD /api/verify) is not under src/.  Per §4.4 the workflow resolves
the Identity Session (absent or expired means anonymous), asks the policy
engine, and maps its answer to the verification decision; per §5/§7 a
store failure is fail-closed: the workflow returns `Deny` without
consulting the policy engine. -/
def verifyWorkflow (load : StoreLoad IdentitySession) (rules : List AccessRule)
    (dflt : ReqLevel) (t : Target) : Decision :=
  match load with
  | .unavailable => .deny
  | .notFound =>
    decisionFor (evaluate rules dflt t (subjectOf anonymousSession)) anonymousSession
  | .ok s => decisionFor (evaluate rules dflt t (subjectOf s)) s

/-- C5: whenever the session store is unavailable the Verification Workflow
returns `Deny` — never `Allow` — for every rule set, default policy and
target, including rule sets whose policy would otherwise be `Bypass`. -/
theorem verifyWorkflow_storeUnavailable_denies (rules : List AccessRule)
    (dflt : ReqLevel) (t : Target) :
    verifyWorkflow .unavailable rules dflt t = .deny ∧
    verifyWorkflow .unavailable rules dflt t ≠ .allow ∧
    verifyWorkflow .unavailable
        [⟨fun _ => true, fun _ => true, fun _ => true, fun _ => true, .bypass, []⟩]
        dflt t = .deny := by
  exact ⟨rfl, by simp [verifyWorkflow], rfl⟩

/-! ## Ceremony-token store (spec §3, §5, §6)

Modelled from the spec: the ceremony-token store is not under src/.  The
store state is the set of currently valid token nonces; `consume` is the
single atomic check-and-delete step performed by `Finish`
(`TakeIfValid`).  Because consumption is one atomic step, an interleaving
of two concurrent `Finish` calls is exactly an ordering of their two
atomic consume steps. -/

inductive FinishOutcome where
  | success
  | invalidOrExpiredToken
  deriving DecidableEq

/-- Atomic check-and-delete of a ceremony token. -/
def consumeToken (store : Finset Nat) (t : Nat) : FinishOutcome × Finset Nat :=
  if t ∈ store then (.success, store.erase t) else (.invalidOrExpiredToken, store)

/-- Two concurrent `Finish` calls A and B presenting the same token; the
boolean chooses which atomic consume is scheduled first.  Returns
(A's outcome, B's outcome). -/
def twoConcurrentFinish (store : Finset Nat) (t : Nat) (aFirst : Bool) :
    FinishOutcome × FinishOutcome :=
  if aFirst then
    let ra := consumeToken store t
    let rb := consumeToken ra.2 t
    (ra.1, rb.1)
  else
    let rb := consumeToken store t
    let ra := consumeToken rb.2 t
    (ra.1, rb.1)

/-- C6: a ceremony token is consumed exactly once — for any store holding
the token and either scheduling order of two concurrent `Finish` calls,
exactly one call succeeds and the other fails with
`invalidOrExpiredToken`.  Modelled from the spec: consumption is a single
atomic check-and-delete. -/
theorem ceremony_token_consumed_exactly_once (store : Finset Nat) (t : Nat)
    (aFirst : Bool) (h : t ∈ store) :
    ((twoConcurrentFinish store t aFirst).1 = .success ∧
      (twoConcurrentFinish store t aFirst).2 = .invalidOrExpiredToken) ∨
    ((twoConcurrentFinish store t aFirst).1 = .invalidOrExpiredToken ∧
      (twoConcurrentFinish store t aFirst).2 = .success) := by
  cases aFirst with
  | false =>
    right
    simp [twoConcurrentFinish, consumeToken, h, Finset.not_mem_erase]
  | true =>
    left
    simp [twoConcurrentFinish, consumeToken, h, Finset.not_mem_erase]

/-- C6 witness: store containing token 7, caller A scheduled first. -/
theorem ceremony_token_consumed_exactly_once_witness :
    ((twoConcurrentFinish {7} 7 true).1 = .success ∧
      (twoConcurrentFinish {7} 7 true).2 = .invalidOrExpiredToken) ∨
    ((twoConcurrentFinish {7} 7 true).1 = .invalidOrExpiredToken ∧
      (twoConcurrentFinish {7} 7 true).2 = .success) :=
  ceremony_token_consumed_exactly_once {7} 7 true (by decide)

/-! ## Server route registration (`getHandler`, server package)

Embedding of `getHandler` as the ordered list of registered routes plus
the router's not-found fallback.  Handlers are represented symbolically by
which handler function and middleware wrappers construct them; the
template parameters fed to `ServeTemplatedFile` (theme, session name,
asset path, TLS, Duo self-enrolment) do not influence routing and are
abstracted into the handler tags.  `LogRequestMiddleware` and
`StripPathMiddleware`, which wrap the whole router, are likewise outside
the routing model. -/

/-- Argument bundle of `middlewares.TimingAttackDelay`; the source builds
the first-factor delay function as
`TimingAttackDelay(10, 250, 85, time.Second)` (the last field in
seconds). -/
inductive DelayFunc where
  | timingAttackDelay (history : Nat) (avgDelayMs : Nat) (percentile : Nat)
      (maxWaitSecs : Nat)
  deriving DecidableEq

/-- The leaf handler functions registered by `getHandler`. -/
inductive BaseHandler where
  | serveIndex
  | publicHTML
  | localesHandler
  | serveSwagger
  | serveSwaggerAPI
  | corsOptionsHandler
  | corsOnlyOptionsHandler
  | healthGET
  | stateGET
  | configurationGET
  | passwordPolicyConfigurationGET
  | verifyGET
  | checkSafeRedirectionPOST
  | logoutPOST
  | resetPasswordIdentityStart
  | resetPasswordIdentityFinish
  | resetPasswordPOST
  | userInfoGET
  | userInfoPOST
  | methodPreferencePOST
  | userTOTPInfoGET
  | totpIdentityStart
  | totpIdentityFinish
  | timeBasedOneTimePasswordPOST
  | webauthnIdentityStart
  | webauthnIdentityFinish
  | webauthnAttestationPOST
  | webauthnAssertionGET
  | webauthnAssertionPOST
  | duoDevicesGET
  | duoPOST
  | duoDevicePOST
  | consentGET
  | consentPOST
  | oidcConfigurationWellKnownGET
  | oauthAuthorizationServerWellKnownGET
  | jsonWebKeySetGET
  | authorizationGET
  | tokenPOST
  | userinfoHandler
  | introspectionPOST
  | revocationPOST
  | pprofHandler
  | expvarHandler
  | methodNotAllowedHandler
  deriving DecidableEq

/-- A handler as registered: a leaf handler, the delay-carrying first
factor handler, or a middleware wrapper around another handler. -/
inductive Handler where
  | base (b : BaseHandler)
  | firstFactorPOST (delay : DelayFunc)
  | assetOverride (inner : Handler)
  | adaptor (inner : Handler)
  | middleware (inner : Handler)
  | corsMiddleware (inner : Handler)
  | require1FA (inner : Handler)
  | notFoundFilter (dirs : List (String × String)) (next : Handler)
  deriving DecidableEq

def Handler.serveIndex : Handler := .base .serveIndex

def Handler.publicHTML : Handler := .base .publicHTML

def Handler.localesHandler : Handler := .base .localesHandler

def Handler.serveSwagger : Handler := .base .serveSwagger

def Handler.serveSwaggerAPI : Handler := .base .serveSwaggerAPI

def Handler.corsOptionsHandler : Handler := .base .corsOptionsHandler

def Handler.corsOnlyOptionsHandler : Handler := .base .corsOnlyOptionsHandler

def Handler.healthGET : Handler := .base .healthGET

def Handler.stateGET : Handler := .base .stateGET

def Handler.configurationGET : Handler := .base .configurationGET

def Handler.passwordPolicyConfigurationGET : Handler := .base .passwordPolicyConfigurationGET

def Handler.verifyGET : Handler := .base .verifyGET

def Handler.checkSafeRedirectionPOST : Handler := .base .checkSafeRedirectionPOST

def Handler.logoutPOST : Handler := .base .logoutPOST

def Handler.resetPasswordIdentityStart : Handler := .base .resetPasswordIdentityStart

def Handler.resetPasswordIdentityFinish : Handler := .base .resetPasswordIdentityFinish

def Handler.resetPasswordPOST : Handler := .base .resetPasswordPOST

def Handler.userInfoGET : Handler := .base .userInfoGET

def Handler.userInfoPOST : Handler := .base .userInfoPOST

def Handler.methodPreferencePOST : Handler := .base .methodPreferencePOST

def Handler.userTOTPInfoGET : Handler := .base .userTOTPInfoGET

def Handler.totpIdentityStart : Handler := .base .totpIdentityStart

def Handler.totpIdentityFinish : Handler := .base .totpIdentityFinish

def Handler.timeBasedOneTimePasswordPOST : Handler := .base .timeBasedOneTimePasswordPOST

def Handler.webauthnIdentityStart : Handler := .base .webauthnIdentityStart

def Handler.webauthnIdentityFinish : Handler := .base .webauthnIdentityFinish

def Handler.webauthnAttestationPOST : Handler := .base .webauthnAttestationPOST

def Handler.webauthnAssertionGET : Handler := .base .webauthnAssertionGET

def Handler.webauthnAssertionPOST : Handler := .base .webauthnAssertionPOST

def Handler.duoDevicesGET : Handler := .base .duoDevicesGET

def Handler.duoPOST : Handler := .base .duoPOST

def Handler.duoDevicePOST : Handler := .base .duoDevicePOST

def Handler.consentGET : Handler := .base .consentGET

def Handler.consentPOST : Handler := .base .consentPOST

def Handler.oidcConfigurationWellKnownGET : Handler := .base .oidcConfigurationWellKnownGET

def Handler.oauthAuthorizationServerWellKnownGET : Handler :=
  .base .oauthAuthorizationServerWellKnownGET

def Handler.jsonWebKeySetGET : Handler := .base .jsonWebKeySetGET

def Handler.authorizationGET : Handler := .base .authorizationGET

def Handler.tokenPOST : Handler := .base .tokenPOST

def Handler.userinfoHandler : Handler := .base .userinfoHandler

def Handler.introspectionPOST : Handler := .base .introspectionPOST

def Handler.revocationPOST : Handler := .base .revocationPOST

def Handler.pprofHandler : Handler := .base .pprofHandler

def Handler.expvarHandler : Handler := .base .expvarHandler

def Handler.methodNotAllowedHandler : Handler := .base .methodNotAllowedHandler

inductive Method where
  | GET
  | POST
  | HEAD
  | OPTIONS
  deriving DecidableEq

/-- fasthttp router path patterns used by `getHandler`.  `exact` is a
literal path; `pathTail pfx` stands for a `filepath:*` catch-all under
`pfx`; `localesAsset` approximates the two locales patterns (a path under
/locales/ ending in .json); `pprofName` is `/debug/pprof/` with an
optional name segment. -/
inductive RoutePattern where
  | exact (path : String)
  | pathTail (pfx : String)
  | localesAsset
  | pprofName
  deriving DecidableEq

def matchesPath : RoutePattern → String → Bool
  | .exact s, q => q == s
  | .pathTail pfx, q => startsWithStr q pfx
  | .localesAsset, q => startsWithStr q "/locales/" && endsWithStr q ".json"
  | .pprofName, q => q == "/debug/pprof" || startsWithStr q "/debug/pprof/"

structure Route where
  method : Method
  pattern : RoutePattern
  handler : Handler
  deriving DecidableEq

/-- Configuration slice read by `getHandler` for routing decisions. -/
structure TOTPConfiguration where
  disable : Bool
  deriving DecidableEq

structure WebauthnConfiguration where
  disable : Bool
  deriving DecidableEq

structure DuoAPIConfiguration where
  enableSelfEnrollment : Bool
  deriving DecidableEq

structure ServerConfiguration where
  enablePprof : Bool
  enableExpvars : Bool
  deriving DecidableEq

structure AuthenticationBackendConfiguration where
  disableResetPassword : Bool
  passwordResetCustomURL : String
  deriving DecidableEq

structure Configuration where
  totp : TOTPConfiguration
  webauthn : WebauthnConfiguration
  duoAPI : Option DuoAPIConfiguration
  server : ServerConfiguration
  authenticationBackend : AuthenticationBackendConfiguration
  deriving DecidableEq

/-- Providers slice: whether `providers.OpenIDConnect.Fosite` is non-nil. -/
structure Providers where
  oidcEnabled : Bool
  deriving DecidableEq

/-- Embedded-asset inputs of the route table whose concrete contents live
outside the visible slice: the root files and swagger files iterated by
`getHandler`, and `httpServerDirs` consulted by `handlerNotFound`. -/
structure ServerParams where
  rootFiles : List String
  swaggerFiles : List String
  serverDirs : List (String × String)

/-- Modelled from the spec: the server constant `apiFile` (the swagger API
spec file name) is not under src/. -/
def apiFile : String := "openapi.yml"

/-- Modelled from the spec: path constants of the oidc package are not
under src/; the legacy registrations in `getHandler` pin the legacy pair
of each. -/
def wellKnownOpenIDConfigurationPath : String := "/.well-known/openid-configuration"

def wellKnownOAuthAuthorizationServerPath : String := "/.well-known/oauth-authorization-server"

def jwksPath : String := "/jwks.json"

def authorizationPath : String := "/api/oidc/authorization"

def tokenPath : String := "/api/oidc/token"

def userinfoPath : String := "/api/oidc/userinfo"

def introspectionPath : String := "/api/oidc/introspection"

def revocationPath : String := "/api/oidc/revocation"

def rootFileRoute (f : String) : Route :=
  ⟨.GET, .exact ("/" ++ f), .publicHTML⟩

def swaggerFileRoute (f : String) : Route :=
  ⟨.GET, .exact ("/api/" ++ f), .publicHTML⟩

def indexRoutes : List Route :=
  [⟨.GET, .exact "/", .middleware .serveIndex⟩]

def assetRoutes : List Route :=
  [⟨.GET, .exact "/favicon.ico", .assetOverride .publicHTML⟩,
   ⟨.GET, .exact "/static/media/logo.png", .assetOverride .publicHTML⟩,
   ⟨.GET, .pathTail "/static/", .publicHTML⟩,
   ⟨.GET, .localesAsset, .assetOverride .localesHandler⟩,
   ⟨.GET, .localesAsset, .assetOverride .localesHandler⟩]

def swaggerBaseRoutes : List Route :=
  [⟨.GET, .exact "/api/", .middleware .serveSwagger⟩,
   ⟨.OPTIONS, .exact "/api/", .corsOptionsHandler⟩,
   ⟨.GET, .exact ("/api/" ++ apiFile), .corsMiddleware (.middleware .serveSwaggerAPI)⟩,
   ⟨.OPTIONS, .exact ("/api/" ++ apiFile), .corsOptionsHandler⟩]

def coreAPIRoutes (delayFunc : DelayFunc) : List Route :=
  [⟨.GET, .exact "/api/health", .middleware .healthGET⟩,
   ⟨.GET, .exact "/api/state", .middleware .stateGET⟩,
   ⟨.GET, .exact "/api/configuration", .middleware (.require1FA .configurationGET)⟩,
   ⟨.GET, .exact "/api/configuration/password-policy",
     .middleware .passwordPolicyConfigurationGET⟩,
   ⟨.GET, .exact "/api/verify", .middleware .verifyGET⟩,
   ⟨.HEAD, .exact "/api/verify", .middleware .verifyGET⟩,
   ⟨.POST, .exact "/api/checks/safe-redirection", .middleware .checkSafeRedirectionPOST⟩,
   ⟨.POST, .exact "/api/firstfactor", .middleware (.firstFactorPOST delayFunc)⟩,
   ⟨.POST, .exact "/api/logout", .middleware .logoutPOST⟩]

def resetPasswordRoutes : List Route :=
  [⟨.POST, .exact "/api/reset-password/identity/start",
     .middleware .resetPasswordIdentityStart⟩,
   ⟨.POST, .exact "/api/reset-password/identity/finish",
     .middleware .resetPasswordIdentityFinish⟩,
   ⟨.POST, .exact "/api/reset-password", .middleware .resetPasswordPOST⟩]

def userInfoRoutes : List Route :=
  [⟨.GET, .exact "/api/user/info", .middleware (.require1FA .userInfoGET)⟩,
   ⟨.POST, .exact "/api/user/info", .middleware (.require1FA .userInfoPOST)⟩,
   ⟨.POST, .exact "/api/user/info/2fa_method",
     .middleware (.require1FA .methodPreferencePOST)⟩]

def totpRoutes : List Route :=
  [⟨.GET, .exact "/api/user/info/totp", .middleware (.require1FA .userTOTPInfoGET)⟩,
   ⟨.POST, .exact "/api/secondfactor/totp/identity/start",
     .middleware (.require1FA .totpIdentityStart)⟩,
   ⟨.POST, .exact "/api/secondfactor/totp/identity/finish",
     .middleware (.require1FA .totpIdentityFinish)⟩,
   ⟨.POST, .exact "/api/secondfactor/totp",
     .middleware (.require1FA .timeBasedOneTimePasswordPOST)⟩]

def webauthnRoutes : List Route :=
  [⟨.POST, .exact "/api/secondfactor/webauthn/identity/start",
     .middleware (.require1FA .webauthnIdentityStart)⟩,
   ⟨.POST, .exact "/api/secondfactor/webauthn/identity/finish",
     .middleware (.require1FA .webauthnIdentityFinish)⟩,
   ⟨.POST, .exact "/api/secondfactor/webauthn/attestation",
     .middleware (.require1FA .webauthnAttestationPOST)⟩,
   ⟨.GET, .exact "/api/secondfactor/webauthn/assertion",
     .middleware (.require1FA .webauthnAssertionGET)⟩,
   ⟨.POST, .exact "/api/secondfactor/webauthn/assertion",
     .middleware (.require1FA .webauthnAssertionPOST)⟩]

def duoRoutes : List Route :=
  [⟨.GET, .exact "/api/secondfactor/duo_devices", .middleware (.require1FA .duoDevicesGET)⟩,
   ⟨.POST, .exact "/api/secondfactor/duo", .middleware (.require1FA .duoPOST)⟩,
   ⟨.POST, .exact "/api/secondfactor/duo_device", .middleware (.require1FA .duoDevicePOST)⟩]

def pprofRoutes : List Route :=
  [⟨.GET, .pprofName, .pprofHandler⟩]

def expvarRoutes : List Route :=
  [⟨.GET, .exact "/debug/vars", .expvarHandler⟩]

def oidcRoutes : List Route :=
  [⟨.GET, .exact "/api/oidc/consent", .middleware .consentGET⟩,
   ⟨.POST, .exact "/api/oidc/consent", .middleware .consentPOST⟩,
   ⟨.OPTIONS, .exact wellKnownOpenIDConfigurationPath, .corsOptionsHandler⟩,
   ⟨.GET, .exact wellKnownOpenIDConfigurationPath,
     .corsMiddleware (.middleware .oidcConfigurationWellKnownGET)⟩,
   ⟨.OPTIONS, .exact wellKnownOAuthAuthorizationServerPath, .corsOptionsHandler⟩,
   ⟨.GET, .exact wellKnownOAuthAuthorizationServerPath,
     .corsMiddleware (.middleware .oauthAuthorizationServerWellKnownGET)⟩,
   ⟨.OPTIONS, .exact jwksPath, .corsOptionsHandler⟩,
   ⟨.GET, .exact jwksPath, .corsMiddleware (.middleware .jsonWebKeySetGET)⟩,
   ⟨.OPTIONS, .exact "/api/oidc/jwks", .corsOptionsHandler⟩,
   ⟨.GET, .exact "/api/oidc/jwks", .corsMiddleware (.middleware .jsonWebKeySetGET)⟩,
   ⟨.OPTIONS, .exact authorizationPath, .corsOnlyOptionsHandler⟩,
   ⟨.GET, .exact authorizationPath, .middleware (.adaptor .authorizationGET)⟩,
   ⟨.OPTIONS, .exact "/api/oidc/authorize", .corsOnlyOptionsHandler⟩,
   ⟨.GET, .exact "/api/oidc/authorize", .middleware (.adaptor .authorizationGET)⟩,
   ⟨.OPTIONS, .exact tokenPath, .corsOptionsHandler⟩,
   ⟨.POST, .exact tokenPath, .corsMiddleware (.middleware (.adaptor .tokenPOST))⟩,
   ⟨.OPTIONS, .exact userinfoPath, .corsOptionsHandler⟩,
   ⟨.GET, .exact userinfoPath, .corsMiddleware (.middleware (.adaptor .userinfoHandler))⟩,
   ⟨.POST, .exact userinfoPath, .corsMiddleware (.middleware (.adaptor .userinfoHandler))⟩,
   ⟨.OPTIONS, .exact introspectionPath, .corsOptionsHandler⟩,
   ⟨.POST, .exact introspectionPath,
     .corsMiddleware (.middleware (.adaptor .introspectionPOST))⟩,
   ⟨.OPTIONS, .exact "/api/oidc/introspect", .corsOptionsHandler⟩,
   ⟨.POST, .exact "/api/oidc/introspect",
     .corsMiddleware (.middleware (.adaptor .introspectionPOST))⟩,
   ⟨.OPTIONS, .exact revocationPath, .corsOptionsHandler⟩,
   ⟨.POST, .exact revocationPath,
     .corsMiddleware (.middleware (.adaptor .revocationPOST))⟩,
   ⟨.OPTIONS, .exact "/api/oidc/revoke", .corsOptionsHandler⟩,
   ⟨.POST, .exact "/api/oidc/revoke",
     .corsMiddleware (.middleware (.adaptor .revocationPOST))⟩]

/-- The built router: registered routes in registration order, plus the
`r.NotFound` fallback `handlerNotFound(middleware(serveIndexHandler))`. -/
structure RouterSpec where
  routes : List Route
  notFound : Handler

/-- Embedding of `getHandler` (server package).  Segment order follows the
source registration order; each conditional block is present exactly under
the source's condition.  The delay function literal is
`TimingAttackDelay(10, 250, 85, time.Second)` as in the source. -/
def getHandler (config : Configuration) (providers : Providers)
    (p : ServerParams) : RouterSpec :=
  { routes :=
      indexRoutes
      ++ p.rootFiles.map rootFileRoute
      ++ assetRoutes
      ++ swaggerBaseRoutes
      ++ p.swaggerFiles.map swaggerFileRoute
      ++ coreAPIRoutes (DelayFunc.timingAttackDelay 10 250 85 1)
      ++ (if !config.authenticationBackend.disableResetPassword &&
            config.authenticationBackend.passwordResetCustomURL == "" then
            resetPasswordRoutes
          else [])
      ++ userInfoRoutes
      ++ (if !config.totp.disable then totpRoutes else [])
      ++ (if !config.webauthn.disable then webauthnRoutes else [])
      ++ (match config.duoAPI with
          | some _ => duoRoutes
          | Option.none => [])
      ++ (if config.server.enablePprof then pprofRoutes else [])
      ++ (if config.server.enableExpvars then expvarRoutes else [])
      ++ (if providers.oidcEnabled then oidcRoutes else []),
    notFound := .notFoundFilter p.serverDirs (.middleware .serveIndex) }

/-- Router dispatch: first registered route whose method and pattern match;
otherwise 405 when another method matches the path
(`HandleMethodNotAllowed`), else the not-found fallback. -/
def dispatch (rs : RouterSpec) (m : Method) (q : String) : Handler :=
  match rs.routes.find? (fun r => r.method == m && matchesPath r.pattern q) with
  | some r => r.handler
  | Option.none =>
    if rs.routes.any (fun r => matchesPath r.pattern q) then .methodNotAllowedHandler
    else rs.notFound

/-- Observable outcome of running a handler.  `methodDisabled` belongs to
the spec's error taxonomy (§7) and is shown unreachable for unregistered
ceremony routes. -/
inductive ExecResult where
  | reached (h : Handler)
  | unauthenticated
  | statusNotFound
  | methodDisabled
  deriving DecidableEq

/-- Handler execution against a request path and the session's factor
level.  `AutheliaMiddleware`, the CORS wrapper and the HTTP adaptor are
context-passing wrappers for this purpose.  Modelled from the spec:
`middlewares.Require1FA` is not under src/; per §4.2 it refuses with an
Unauthenticated result unless the session holds at least a first factor,
without invoking the wrapped handler.  `handlerNotFound` responds 404 when
the lowercased path names or is prefixed by one of `httpServerDirs`,
otherwise it runs the wrapped next handler. -/
def exec : Handler → String → FactorLevel → ExecResult
  | .middleware h, q, l => exec h q l
  | .corsMiddleware h, q, l => exec h q l
  | .adaptor h, q, l => exec h q l
  | .require1FA h, q, l =>
    if factorGE l .first then exec h q l else .unauthenticated
  | .notFoundFilter dirs next, q, l =>
    if dirs.any (fun d =>
        lowerString q == d.fst || startsWithStr (lowerString q) d.snd) then
      .statusNotFound
    else exec next q l
  | h, _, _ => .reached h

def isReached : ExecResult → Bool
  | .reached _ => true
  | _ => false

/-- True when the handler is wrapped as `middleware(Require1FA(·))`. -/
def isRequire1FA : Handler → Bool
  | .require1FA _ => true
  | _ => false

def require1FAShape : Handler → Bool
  | .middleware inner => isRequire1FA inner
  | _ => false

/-- Second-factor ceremony path test. -/
def sfPath (q : String) : Bool :=
  startsWithStr q "/api/secondfactor/"

def sfPathPat : RoutePattern → Bool
  | .exact q => sfPath q
  | _ => false

/-- Case split over the registered routes: a property holding on the two
asset-file families, on every unconditionally registered route, and on
each conditional block under its registration condition, holds for every
registered route. -/
theorem mem_getHandler_cases (config : Configuration) (providers : Providers)
    (p : ServerParams) (P : Route → Prop)
    (hroot : ∀ f ∈ p.rootFiles, P (rootFileRoute f))
    (hswag : ∀ f ∈ p.swaggerFiles, P (swaggerFileRoute f))
    (hfix : ∀ r ∈ indexRoutes ++ assetRoutes ++ swaggerBaseRoutes ++
        coreAPIRoutes (DelayFunc.timingAttackDelay 10 250 85 1) ++
        resetPasswordRoutes ++ userInfoRoutes ++ pprofRoutes ++ expvarRoutes ++
        oidcRoutes, P r)
    (htotp : config.totp.disable = false → ∀ r ∈ totpRoutes, P r)
    (hweb : config.webauthn.disable = false → ∀ r ∈ webauthnRoutes, P r)
    (hduo : config.duoAPI.isSome = true → ∀ r ∈ duoRoutes, P r) :
    ∀ r ∈ (getHandler config providers p).routes, P r := by
  simp only [List.forall_mem_append] at hfix
  obtain ⟨⟨⟨⟨⟨⟨⟨⟨h1, h2⟩, h3⟩, h4⟩, h5⟩, h6⟩, h7⟩, h8⟩, h9⟩ := hfix
  intro r hr
  simp only [getHandler, List.mem_append] at hr
  rcases hr with
    ((((((((((((hr | hr) | hr) | hr) | hr) | hr) | hr) | hr) | hr) | hr) | hr) | hr)
      | hr) | hr
  · exact h1 r hr
  · obtain ⟨f, hf, rfl⟩ := List.mem_map.mp hr
    exact hroot f hf
  · exact h2 r hr
  · exact h3 r hr
  · obtain ⟨f, hf, rfl⟩ := List.mem_map.mp hr
    exact hswag f hf
  · exact h4 r hr
  · split at hr
    · exact h5 r hr
    · exact absurd hr (List.not_mem_nil r)
  · exact h6 r hr
  · split at hr
    · rename_i hc
      refine htotp ?_ r hr
      simpa using hc
    · exact absurd hr (List.not_mem_nil r)
  · split at hr
    · rename_i hc
      refine hweb ?_ r hr
      simpa using hc
    · exact absurd hr (List.not_mem_nil r)
  · split at hr
    · rename_i d hc
      refine hduo ?_ r hr
      rw [hc]
      rfl
    · exact absurd hr (List.not_mem_nil r)
  · split at hr
    · exact h7 r hr
    · exact absurd hr (List.not_mem_nil r)
  · split at hr
    · exact h8 r hr
    · exact absurd hr (List.not_mem_nil r)
  · split at hr
    · exact h9 r hr
    · exact absurd hr (List.not_mem_nil r)

/-- C2: in every configuration the route registered for POST
/api/firstfactor carries the handler
`FirstFactorPOST(TimingAttackDelay(10, 250, 85, time.Second))` wrapped in
the Authelia middleware, and such a route is always registered. -/
theorem firstfactor_route_uses_timingAttackDelay (config : Configuration)
    (providers : Providers) (p : ServerParams) (r : Route)
    (hr : r ∈ (getHandler config providers p).routes)
    (hm : r.method = Method.POST)
    (hp : r.pattern = RoutePattern.exact "/api/firstfactor") :
    r.handler =
      .middleware (.firstFactorPOST (DelayFunc.timingAttackDelay 10 250 85 1)) ∧
    (⟨.POST, .exact "/api/firstfactor",
      .middleware (.firstFactorPOST (DelayFunc.timingAttackDelay 10 250 85 1))⟩ : Route) ∈
      (getHandler config providers p).routes := by
  constructor
  · have hall := mem_getHandler_cases config providers p
      (fun r2 => r2.method = Method.POST →
        r2.pattern = RoutePattern.exact "/api/firstfactor" →
        r2.handler =
          .middleware (.firstFactorPOST (DelayFunc.timingAttackDelay 10 250 85 1)))
      (fun f _ hm2 _ => by simp [rootFileRoute] at hm2)
      (fun f _ hm2 _ => by simp [swaggerFileRoute] at hm2)
      (by decide) (fun _ => by decide) (fun _ => by decide) (fun _ => by decide)
    exact hall r hr hm hp
  · have hc : (⟨.POST, .exact "/api/firstfactor",
        .middleware (.firstFactorPOST (DelayFunc.timingAttackDelay 10 250 85 1))⟩ : Route) ∈
        coreAPIRoutes (DelayFunc.timingAttackDelay 10 250 85 1) := by decide
    simp only [getHandler, List.mem_append]
    simp [hc]

def allMethodsConfig : Configuration :=
  ⟨⟨false⟩, ⟨false⟩, some ⟨false⟩, ⟨false, false⟩, ⟨false, ""⟩⟩

/-- Modelled from the spec: the server constant `httpServerDirs` (the
directory names 404-blocked by `handlerNotFound`) is not under src/. -/
def httpServerDirs : List (String × String) :=
  [("/api", "/api/"), ("/debug", "/debug/"), ("/dev", "/dev/"),
   ("/locales", "/locales/"), ("/static", "/static/")]

def sampleServerParams : ServerParams := ⟨[], [], httpServerDirs⟩

/-- C2 witness: concrete configuration with every optional block enabled. -/
theorem firstfactor_route_uses_timingAttackDelay_witness :
    (⟨.POST, .exact "/api/firstfactor",
      .middleware (.firstFactorPOST (DelayFunc.timingAttackDelay 10 250 85 1))⟩ : Route).handler =
      .middleware (.firstFactorPOST (DelayFunc.timingAttackDelay 10 250 85 1)) ∧
    (⟨.POST, .exact "/api/firstfactor",
      .middleware (.firstFactorPOST (DelayFunc.timingAttackDelay 10 250 85 1))⟩ : Route) ∈
      (getHandler allMethodsConfig ⟨true⟩ sampleServerParams).routes :=
  firstfactor_route_uses_timingAttackDelay allMethodsConfig ⟨true⟩ sampleServerParams
    ⟨.POST, .exact "/api/firstfactor",
      .middleware (.firstFactorPOST (DelayFunc.timingAttackDelay 10 250 85 1))⟩
    (by decide) rfl rfl

theorem exec_require1FAShape (h : Handler) (q : String)
    (hh : require1FAShape h = true) :
    exec h q FactorLevel.none = .unauthenticated := by
  cases h <;> simp [require1FAShape] at hh
  case middleware inner =>
    cases inner <;> simp [isRequire1FA] at hh
    case require1FA inner2 => simp [exec, factorGE, FactorLevel.toNat]

/-- C3: every registered route whose path lies under /api/secondfactor/
(the TOTP, WebAuthn and Duo ceremony endpoints) has its handler wrapped
as `middleware(Require1FA(·))`, and running it with a session whose factor
level is below First yields Unauthenticated: the wrapped method handler is
never reached.  Require1FA is modelled from the spec (its body is not
under src/). -/
theorem secondfactor_routes_require1FA (config : Configuration)
    (providers : Providers) (p : ServerParams)
    (hroot : ∀ f ∈ p.rootFiles, sfPath ("/" ++ f) = false)
    (hswag : ∀ f ∈ p.swaggerFiles, sfPath ("/api/" ++ f) = false)
    (r : Route) (hr : r ∈ (getHandler config providers p).routes)
    (hsf : sfPathPat r.pattern = true) (path : String) :
    require1FAShape r.handler = true ∧
    exec r.handler path FactorLevel.none = .unauthenticated ∧
    isReached (exec r.handler path FactorLevel.none) = false := by
  have hshape : require1FAShape r.handler = true := by
    have hall := mem_getHandler_cases config providers p
      (fun r2 => sfPathPat r2.pattern = true → require1FAShape r2.handler = true)
      (fun f hf hx => absurd hx (by simp [rootFileRoute, sfPathPat, hroot f hf]))
      (fun f hf hx => absurd hx (by simp [swaggerFileRoute, sfPathPat, hswag f hf]))
      (by decide) (fun _ => by decide) (fun _ => by decide) (fun _ => by decide)
    exact hall r hr hsf
  have hexec := exec_require1FAShape r.handler path hshape
  exact ⟨hshape, hexec, by rw [hexec]; rfl⟩

/-- C3 witness: the TOTP verification route in a configuration with all
methods enabled, run with an anonymous session. -/
theorem secondfactor_routes_require1FA_witness :
    require1FAShape (⟨.POST, .exact "/api/secondfactor/totp",
      .middleware (.require1FA .timeBasedOneTimePasswordPOST)⟩ : Route).handler = true ∧
    exec (⟨.POST, .exact "/api/secondfactor/totp",
      .middleware (.require1FA .timeBasedOneTimePasswordPOST)⟩ : Route).handler
      "/api/secondfactor/totp" FactorLevel.none = .unauthenticated ∧
    isReached (exec (⟨.POST, .exact "/api/secondfactor/totp",
      .middleware (.require1FA .timeBasedOneTimePasswordPOST)⟩ : Route).handler
      "/api/secondfactor/totp" FactorLevel.none) = false :=
  secondfactor_routes_require1FA allMethodsConfig ⟨true⟩ sampleServerParams
    (by simp [sampleServerParams]) (by simp [sampleServerParams])
    ⟨.POST, .exact "/api/secondfactor/totp",
      .middleware (.require1FA .timeBasedOneTimePasswordPOST)⟩
    (by decide) (by decide) "/api/secondfactor/totp"

/-- Ceremony-start request path of each second-factor method (for Duo the
ceremony is driven through POST /api/secondfactor/duo). -/
def startPathOf : SFMethod → String
  | .totp => "/api/secondfactor/totp/identity/start"
  | .webauthn => "/api/secondfactor/webauthn/identity/start"
  | .duo => "/api/secondfactor/duo"

/-- The method is turned off in the configuration (TOTP or WebAuthn
disabled, Duo not configured). -/
def methodOff (config : Configuration) : SFMethod → Bool
  | .totp => config.totp.disable
  | .webauthn => config.webauthn.disable
  | .duo => config.duoAPI.isNone

theorem dispatch_no_path_match (rs : RouterSpec) (m : Method) (q : String)
    (h : ∀ r ∈ rs.routes, matchesPath r.pattern q = false) :
    dispatch rs m q = rs.notFound := by
  unfold dispatch
  have hfind : rs.routes.find?
      (fun r => r.method == m && matchesPath r.pattern q) = Option.none := by
    rw [List.find?_eq_none]
    intro r hr
    simp [h r hr]
  have hany : rs.routes.any (fun r => matchesPath r.pattern q) = false := by
    rw [List.any_eq_false]
    intro r hr
    simp [h r hr]
  rw [hfind, hany]
  simp

theorem exec_notFound_fallback (dirs : List (String × String)) (q : String)
    (l : FactorLevel) :
    exec (.notFoundFilter dirs (.middleware .serveIndex)) q l = .statusNotFound ∨
    exec (.notFoundFilter dirs (.middleware .serveIndex)) q l = .reached .serveIndex := by
  cases hc : dirs.any (fun d =>
      lowerString q == d.fst || startsWithStr (lowerString q) d.snd)
  · right
    simp [exec, hc, Handler.serveIndex]
  · left
    simp [exec, hc]

/-- C4 (amended): when a second-factor method is turned off, its ceremony
start route is simply not registered: the start request matches no route,
dispatch hands it to the router's not-found fallback
(`handlerNotFound(middleware(serveIndexHandler))`), and the outcome is a
plain 404 or the served SPA index — never a typed MethodDisabled result.
The asset-file hypotheses say the operator-supplied embedded asset names
do not shadow the ceremony path. -/
theorem disabled_method_start_falls_through (config : Configuration)
    (providers : Providers) (p : ServerParams) (m : SFMethod) (lvl : FactorLevel)
    (hoff : methodOff config m = true)
    (hroot : ∀ f ∈ p.rootFiles, (startPathOf m == "/" ++ f) = false)
    (hswag : ∀ f ∈ p.swaggerFiles, (startPathOf m == "/api/" ++ f) = false) :
    dispatch (getHandler config providers p) .POST (startPathOf m) =
      (getHandler config providers p).notFound ∧
    exec (dispatch (getHandler config providers p) .POST (startPathOf m))
      (startPathOf m) lvl ≠ .methodDisabled ∧
    (exec (dispatch (getHandler config providers p) .POST (startPathOf m))
        (startPathOf m) lvl = .statusNotFound ∨
      exec (dispatch (getHandler config providers p) .POST (startPathOf m))
        (startPathOf m) lvl = .reached .serveIndex) := by
  have hnm : ∀ r ∈ (getHandler config providers p).routes,
      matchesPath r.pattern (startPathOf m) = false := by
    cases m with
    | totp =>
      refine mem_getHandler_cases config providers p
        (fun r => matchesPath r.pattern (startPathOf .totp) = false)
        ?_ ?_ (by decide)
        (fun hc => absurd hoff (by simp [methodOff, hc]))
        (fun _ => by decide) (fun _ => by decide)
      · intro f hf
        simpa [rootFileRoute, matchesPath] using hroot f hf
      · intro f hf
        simpa [swaggerFileRoute, matchesPath] using hswag f hf
    | webauthn =>
      refine mem_getHandler_cases config providers p
        (fun r => matchesPath r.pattern (startPathOf .webauthn) = false)
        ?_ ?_ (by decide)
        (fun _ => by decide)
        (fun hc => absurd hoff (by simp [methodOff, hc]))
        (fun _ => by decide)
      · intro f hf
        simpa [rootFileRoute, matchesPath] using hroot f hf
      · intro f hf
        simpa [swaggerFileRoute, matchesPath] using hswag f hf
    | duo =>
      refine mem_getHandler_cases config providers p
        (fun r => matchesPath r.pattern (startPathOf .duo) = false)
        ?_ ?_ (by decide)
        (fun _ => by decide) (fun _ => by decide)
        (by
          intro hs r hr
          exfalso
          simp [methodOff, Option.isNone_iff_eq_none] at hoff
          rw [hoff] at hs
          simp at hs)
      · intro f hf
        simpa [rootFileRoute, matchesPath] using hroot f hf
      · intro f hf
        simpa [swaggerFileRoute, matchesPath] using hswag f hf
  have hdisp := dispatch_no_path_match (getHandler config providers p) .POST
    (startPathOf m) hnm
  have hnf : (getHandler config providers p).notFound =
      Handler.notFoundFilter p.serverDirs (.middleware .serveIndex) := rfl
  refine ⟨hdisp, ?_, ?_⟩
  · rw [hdisp, hnf]
    rcases exec_notFound_fallback p.serverDirs (startPathOf m) lvl with hfb | hfb <;>
      rw [hfb] <;> simp
  · rw [hdisp, hnf]
    exact exec_notFound_fallback p.serverDirs (startPathOf m) lvl

def disabledMethodsConfig : Configuration :=
  ⟨⟨true⟩, ⟨true⟩, Option.none, ⟨false, false⟩, ⟨true, ""⟩⟩

/-- C4 counterexample: with TOTP disabled, a POST to the TOTP ceremony
start path is answered by the not-found fallback as a plain 404 (the path
is under /api/, one of the 404-blocked server directories), not by a
typed MethodDisabled result. -/
theorem disabled_totp_start_is_notFound_not_methodDisabled :
    exec (dispatch (getHandler disabledMethodsConfig ⟨false⟩ sampleServerParams)
        .POST "/api/secondfactor/totp/identity/start")
      "/api/secondfactor/totp/identity/start" .first = .statusNotFound ∧
    ExecResult.statusNotFound ≠ ExecResult.methodDisabled :=
  ⟨by decide, by decide⟩

/-- C4 witness: the amended theorem at the concrete configuration with
every method turned off, for the TOTP start path. -/
theorem disabled_method_start_falls_through_witness :
    dispatch (getHandler disabledMethodsConfig ⟨false⟩ sampleServerParams) .POST
        (startPathOf .totp) =
      (getHandler disabledMethodsConfig ⟨false⟩ sampleServerParams).notFound ∧
    exec (dispatch (getHandler disabledMethodsConfig ⟨false⟩ sampleServerParams) .POST
        (startPathOf .totp)) (startPathOf .totp) .first ≠ .methodDisabled ∧
    (exec (dispatch (getHandler disabledMethodsConfig ⟨false⟩ sampleServerParams) .POST
        (startPathOf .totp)) (startPathOf .totp) .first = .statusNotFound ∨
      exec (dispatch (getHandler disabledMethodsConfig ⟨false⟩ sampleServerParams) .POST
        (startPathOf .totp)) (startPathOf .totp) .first = .reached .serveIndex) :=
  disabled_method_start_falls_through disabledMethodsConfig ⟨false⟩ sampleServerParams
    .totp .first rfl (by simp [sampleServerParams]) (by simp [sampleServerParams])

end Authelia
